import Mathlib

/-!
Shallow embedding of the position-lifecycle and strategy-decision core of
`src/gmx_trading_bot.py`, together with theorems settling the specification
claims about it.  Python floats are modelled as exact rationals (ℚ); the
string-tagged side and signal values are modelled as closed enumerations.
-/

/-- Trade side of a position, the `"long"` / `"short"` strings of the source. -/
inductive Side where
  | long : Side
  | short : Side
deriving DecidableEq, Repr

/-- Strategy signal, the `"BUY"` / `"SELL"` / `"NONE"` strings of the source. -/
inductive Signal where
  | BUY : Signal
  | SELL : Signal
  | NONE : Signal
deriving DecidableEq, Repr

/-- Medium-timeframe trend classification, the `"UP"` / `"DOWN"` strings. -/
inductive Trend where
  | UP : Trend
  | DOWN : Trend
deriving DecidableEq, Repr

/-- Module configuration constant `PAPER_LEVERAGE_FACTOR = 10` of the source. -/
def PAPER_LEVERAGE_FACTOR : ℚ := 10

/-- Module configuration constant `RSI_OVERSOLD = 50` of the source. -/
def RSI_OVERSOLD : ℚ := 50

/-- Module configuration constant `RSI_OVERBOUGHT = 50` of the source. -/
def RSI_OVERBOUGHT : ℚ := 50

/-- Python `round(x, 4)`, modelled over ℚ as rounding to the nearest multiple
of `1/10000` (`round` rounds halves up; tie behaviour is immaterial to every
claim below, none of which evaluates the sizer at a half-way value). -/
def round4 (x : ℚ) : ℚ := (round (x * 10000) : ℚ) / 10000

/-- The mutable state of `PaperTradingBot`: its `__init__` fields.  The bot
owns the single position of the system, so the position fields live inline. -/
structure BotState where
  balance : ℚ
  risk_pct : ℚ
  position_active : Bool
  position_side : Option Side
  entry_price : ℚ
  position_size : ℚ
  stop_loss : ℚ
  take_profit : ℚ
deriving DecidableEq, Repr

/-- `PaperTradingBot.__init__(starting_balance, risk_pct)`. -/
def BotState.init (starting_balance risk_pct : ℚ) : BotState :=
  { balance := starting_balance
    risk_pct := risk_pct
    position_active := false
    position_side := none
    entry_price := 0
    position_size := 0
    stop_loss := 0
    take_profit := 0 }

/-- `PaperTradingBot.calculate_position_size(stop_distance)`.  The method reads
`self.balance` and `self.risk_pct` and multiplies by the module configuration
constant `PAPER_LEVERAGE_FACTOR`; here all three are explicit parameters, and
the configured value `10` (or the spec's `leverage_factor = 1` baseline) is
plugged in at the call sites. -/
def calculate_position_size (balance risk_pct leverage_factor stop_distance : ℚ) : ℚ :=
  let risk_amount := balance * (risk_pct / 100) * leverage_factor
  if stop_distance ≤ 0 then 0
  else round4 (risk_amount / stop_distance)

/-- `PaperTradingBot.open_position(side, entry_price, stop_loss, take_profit)`:
a silent no-op while a position is active; otherwise stores the fields, sizes
the position from `|entry_price - stop_loss|` and marks it active. -/
def open_position (s : BotState) (side : Side)
    (entry_price stop_loss take_profit : ℚ) : BotState :=
  if s.position_active then s
  else
    let stop_dist := |entry_price - stop_loss|
    { s with
      position_active := true
      position_side := some side
      entry_price := entry_price
      stop_loss := stop_loss
      take_profit := take_profit
      position_size :=
        calculate_position_size s.balance s.risk_pct PAPER_LEVERAGE_FACTOR stop_dist }

/-- `PaperTradingBot.close_position(close_price, hit_stop)`: a silent no-op
while no position is active; otherwise realises the side-dependent PnL into
the balance and resets every position field.  `hit_stop` only feeds the log
line in the source and does not influence the state change. -/
def close_position (s : BotState) (close_price : ℚ) (hit_stop : Bool) : BotState :=
  if ¬ s.position_active then s
  else
    let profit :=
      if s.position_side = some Side.long then
        (close_price - s.entry_price) * s.position_size
      else
        (s.entry_price - close_price) * s.position_size
    { s with
      balance := s.balance + profit
      position_active := false
      position_side := none
      entry_price := 0
      position_size := 0
      stop_loss := 0
      take_profit := 0 }

/-- `PaperTradingBot.check_exit(current_price)`.  The first component is the
resulting state; the second records which exit fired, carrying the `hit_stop`
flag the source passes to `close_position` and its log line (`none` when no
exit condition holds, `some true` for a stop, `some false` for a take-profit). -/
def check_exit (s : BotState) (current_price : ℚ) : BotState × Option Bool :=
  if ¬ s.position_active then (s, none)
  else
    match s.position_side with
    | some Side.long =>
        if current_price ≤ s.stop_loss then
          (close_position s current_price true, some true)
        else if current_price ≥ s.take_profit then
          (close_position s current_price false, some false)
        else (s, none)
    | some Side.short =>
        if current_price ≥ s.stop_loss then
          (close_position s current_price true, some true)
        else if current_price ≤ s.take_profit then
          (close_position s current_price false, some false)
        else (s, none)
    | none => (s, none)

/-- One row of an indicator-augmented candle series, as produced by
`compute_indicators`: the `Close`, `SMA`, `RSI` columns of the DataFrame.
`none` models a NaN (undefined) indicator entry. -/
structure IndRow where
  close : ℚ
  sma : Option ℚ
  rsi : Option ℚ
deriving DecidableEq, Repr

/-- The medium-timeframe trend of `strategy_decision`: `UP` if the latest
close is strictly greater than the latest SMA value, else `DOWN`. -/
def medium_trend (close sma_value : ℚ) : Trend :=
  if close > sma_value then Trend.UP else Trend.DOWN

/-- `strategy_decision(df_med, df_short, bot)` of the source, with the module
threshold constants `RSI_OVERSOLD` / `RSI_OVERBOUGHT` as explicit parameters
and the bot's `position_active` flag passed directly.  `iloc[-1]` is the last
list entry; a NaN indicator at the last row is `none`. -/
def strategy_decision (oversold overbought : ℚ)
    (df_med df_short : List IndRow) (position_active : Bool) : Signal :=
  match df_med.getLast?, df_short.getLast? with
  | some last_med, some last_short =>
    match last_med.sma with
    | none => Signal.NONE
    | some sma_value =>
      let trend := medium_trend last_med.close sma_value
      match last_short.rsi with
      | none => Signal.NONE
      | some rsi_value =>
        if position_active then Signal.NONE
        else if trend = Trend.UP ∧ rsi_value < oversold then Signal.BUY
        else if trend = Trend.DOWN ∧ rsi_value > overbought then Signal.SELL
        else Signal.NONE
  | _, _ => Signal.NONE

/-- Modelled from the spec: the successive close-to-close moves of a series.
The source delegates the momentum computation to the external `ta` library
(`ta.momentum.RSIIndicator`), whose code is not part of this repository, so
the oscillator is modelled from the spec's relative-strength formulation. -/
def diffs : List ℚ → List ℚ
  | a :: b :: rest => (b - a) :: diffs (b :: rest)
  | _ => []

/-- Modelled from the spec: the up-move magnitudes of a list of moves. -/
def gains (ds : List ℚ) : List ℚ := ds.map fun d => max d 0

/-- Modelled from the spec: the down-move magnitudes of a list of moves. -/
def losses (ds : List ℚ) : List ℚ := ds.map fun d => max (-d) 0

/-- Arithmetic mean of a list of rationals, `0` for the empty list. -/
def avg (xs : List ℚ) : ℚ := if xs = [] then 0 else xs.sum / (xs.length : ℚ)

/-- Modelled from the spec: the relative-strength oscillator of one window of
moves — the ratio of average gain to average loss rescaled to 0–100.  A window
with zero average loss maps to 100 and one with zero average gain maps to 0;
the all-flat window (both averages zero, a 0/0 ratio) is undefined, matching
the NaN the source's pandas pipeline produces there. -/
def rsi_of_window (window : List ℚ) : Option ℚ :=
  let avgGain := avg (gains window)
  let avgLoss := avg (losses window)
  if avgGain = 0 ∧ avgLoss = 0 then none
  else if avgLoss = 0 then some 100
  else some (100 - 100 / (1 + avgGain / avgLoss))

/-- Modelled from the spec: the `momentum_value` column — at each index `i`,
the oscillator of the window of the last `rsi_window` moves ending at `i`,
undefined while fewer than `rsi_window` moves exist. -/
def compute_rsi (closes : List ℚ) (rsi_window : ℕ) : List (Option ℚ) :=
  (List.range closes.length).map fun i =>
    if rsi_window ≤ i then
      rsi_of_window (((diffs closes).drop (i - rsi_window)).take rsi_window)
    else none

/-- The spec's Position invariant: an inactive position has every numeric
field zero and no side. -/
def EmptyInv (s : BotState) : Prop :=
  s.position_active = false →
    s.entry_price = 0 ∧ s.position_size = 0 ∧ s.stop_loss = 0
      ∧ s.take_profit = 0 ∧ s.position_side = none

/-- Number of active positions a bot state holds; the bot owns a single
position record, so this is at most one by construction. -/
def activePositions (s : BotState) : ℕ := if s.position_active then 1 else 0

/-- C1: the sizer computes `risk_amount = balance * risk_pct / 100 *
leverage_factor`, returns `0` whenever `stop_distance ≤ 0`, and otherwise
returns `risk_amount / stop_distance` rounded to 4 decimal places; at
`balance = 10000`, `risk_pct = 1`, `stop_distance = 5` it returns `20` for
`leverage_factor = 1` and `200` for `leverage_factor = 10`, and returns `0`
at `stop_distance = 0`. -/
theorem position_sizer_spec (balance risk_pct leverage_factor stop_distance : ℚ) :
    (stop_distance ≤ 0 →
      calculate_position_size balance risk_pct leverage_factor stop_distance = 0)
    ∧ (0 < stop_distance →
      calculate_position_size balance risk_pct leverage_factor stop_distance
        = round4 (balance * risk_pct / 100 * leverage_factor / stop_distance))
    ∧ calculate_position_size 10000 1 1 5 = 20
    ∧ calculate_position_size 10000 1 10 5 = 200
    ∧ calculate_position_size 10000 1 1 0 = 0 := by
  refine ⟨fun h => ?_, fun h => ?_,
    by norm_num [calculate_position_size, round4, round_eq],
    by norm_num [calculate_position_size, round4, round_eq],
    by norm_num [calculate_position_size]⟩
  · simp [calculate_position_size, h]
  · have h2 : ¬ stop_distance ≤ 0 := not_le.mpr h
    simp only [calculate_position_size, h2, if_false]
    ring_nf

/-- Witness for C1: the sizer theorem evaluated at the spec's concrete inputs,
with both hypotheses discharged at `stop_distance = 0` and `stop_distance = 5`. -/
theorem position_sizer_spec_witness :
    calculate_position_size 10000 1 10 0 = 0
    ∧ calculate_position_size 10000 1 10 5 = round4 (10000 * 1 / 100 * 10 / 5) := by
  exact ⟨(position_sizer_spec 10000 1 10 0).1 (by norm_num),
         (position_sizer_spec 10000 1 10 5).2.1 (by norm_num)⟩

/-- C2: the decision rule returns NONE when either series is empty, the latest
trend or momentum value is undefined, or a position is active; otherwise the
trend is UP exactly when the latest medium close is strictly greater than the
latest trend value (ties classify DOWN), and it returns BUY iff trend is UP
and the latest momentum value is strictly below the oversold threshold, SELL
iff trend is DOWN and the momentum value is strictly above the overbought
threshold, and NONE otherwise. -/
theorem strategy_decision_spec (oversold overbought : ℚ)
    (df_med df_short : List IndRow) (position_active : Bool) :
    ((df_med = [] ∨ df_short = []
        ∨ df_med.getLast?.bind IndRow.sma = none
        ∨ df_short.getLast?.bind IndRow.rsi = none
        ∨ position_active = true) →
      strategy_decision oversold overbought df_med df_short position_active
        = Signal.NONE)
    ∧ (∀ lm ls sma_value rsi_value,
        df_med.getLast? = some lm → df_short.getLast? = some ls →
        lm.sma = some sma_value → ls.rsi = some rsi_value →
        position_active = false →
        (medium_trend lm.close sma_value = Trend.UP ↔ lm.close > sma_value)
        ∧ (medium_trend lm.close sma_value = Trend.DOWN ↔ ¬ lm.close > sma_value)
        ∧ (strategy_decision oversold overbought df_med df_short position_active
              = Signal.BUY
            ↔ medium_trend lm.close sma_value = Trend.UP ∧ rsi_value < oversold)
        ∧ (strategy_decision oversold overbought df_med df_short position_active
              = Signal.SELL
            ↔ medium_trend lm.close sma_value = Trend.DOWN
                ∧ rsi_value > overbought)
        ∧ (strategy_decision oversold overbought df_med df_short position_active
              = Signal.NONE
            ↔ ¬ (medium_trend lm.close sma_value = Trend.UP ∧ rsi_value < oversold)
                ∧ ¬ (medium_trend lm.close sma_value = Trend.DOWN
                      ∧ rsi_value > overbought))) := by
  constructor
  · intro h
    cases hm : df_med.getLast? with
    | none => simp [strategy_decision, hm]
    | some lm =>
      cases hs : df_short.getLast? with
      | none => simp [strategy_decision, hm, hs]
      | some ls =>
        cases hsma : lm.sma with
        | none => simp [strategy_decision, hm, hs, hsma]
        | some sv =>
          cases hrsi : ls.rsi with
          | none => simp [strategy_decision, hm, hs, hsma, hrsi]
          | some rv =>
            have hact : position_active = true := by
              rcases h with h | h | h | h | h
              · rw [h] at hm; simp at hm
              · rw [h] at hs; simp at hs
              · rw [hm] at h; simp [hsma] at h
              · rw [hs] at h; simp [hrsi] at h
              · exact h
            simp [strategy_decision, hm, hs, hsma, hrsi, hact]
  · intro lm ls sv rv hm hs hsma hrsi hact
    have e : strategy_decision oversold overbought df_med df_short position_active
        = (if medium_trend lm.close sv = Trend.UP ∧ rv < oversold then Signal.BUY
           else if medium_trend lm.close sv = Trend.DOWN ∧ rv > overbought then
             Signal.SELL
           else Signal.NONE) := by
      simp [strategy_decision, hm, hs, hsma, hrsi, hact]
    refine ⟨?_, ?_, ?_, ?_, ?_⟩
    · unfold medium_trend
      split_ifs with hgt <;> simp [hgt]
    · unfold medium_trend
      split_ifs with hgt <;> simp [hgt]
    · rw [e]; split_ifs with h1 h2 <;> simp [h1]
    · rw [e]; split_ifs with h1 h2
      · simp [h1.1]
      · simp [h2]
      · simp [h2]
    · rw [e]; split_ifs with h1 h2
      · simp [h1]
      · simp [h1, h2]
      · simp [h1, h2]

/-- Witness for C2: with both thresholds at the configured value 50, an
uptrend (close 110 above SMA 100) and momentum 20 below the oversold
threshold yield a BUY on a one-row pair of series with no open position. -/
theorem strategy_decision_spec_witness :
    strategy_decision RSI_OVERSOLD RSI_OVERBOUGHT
      [⟨110, some 100, some 55⟩] [⟨108, some 100, some 20⟩] false
      = Signal.BUY := by
  have h := ((strategy_decision_spec RSI_OVERSOLD RSI_OVERBOUGHT
      [⟨110, some 100, some 55⟩] [⟨108, some 100, some 20⟩] false).2
      ⟨110, some 100, some 55⟩ ⟨108, some 100, some 20⟩ 100 20
      rfl rfl rfl rfl rfl).2.2.1
  exact h.mpr (by constructor <;> [decide; norm_num [RSI_OVERSOLD]])

/-- C3: closing an ACTIVE position at `close_price` adds the side-dependent
PnL — `(close_price - entry_price) * size` for a long, `(entry_price -
close_price) * size` for a short — to the balance and resets every position
field to the EMPTY state. -/
theorem close_position_spec (s : BotState) (close_price : ℚ) (hit_stop : Bool)
    (h : s.position_active = true) :
    (s.position_side = some Side.long →
      (close_position s close_price hit_stop).balance
        = s.balance + (close_price - s.entry_price) * s.position_size)
    ∧ (s.position_side = some Side.short →
      (close_position s close_price hit_stop).balance
        = s.balance + (s.entry_price - close_price) * s.position_size)
    ∧ (close_position s close_price hit_stop).position_active = false
    ∧ (close_position s close_price hit_stop).position_side = none
    ∧ (close_position s close_price hit_stop).entry_price = 0
    ∧ (close_position s close_price hit_stop).position_size = 0
    ∧ (close_position s close_price hit_stop).stop_loss = 0
    ∧ (close_position s close_price hit_stop).take_profit = 0 := by
  refine ⟨fun hside => ?_, fun hside => ?_, ?_, ?_, ?_, ?_, ?_, ?_⟩ <;>
    simp [close_position, h]
  · intro hlong; rw [hside] at hlong; simp at hlong
  · rw [hside]; simp

/-- Witness for C3: a long opened at 100 with size 2 closed at 105 realises a
PnL of 10 (balance 10000 becomes 10010), and a short opened at 100 with size 2
closed at 95 also realises 10; both calls leave the position EMPTY. -/
theorem close_position_spec_witness :
    (close_position ⟨10000, 1, true, some Side.long, 100, 2, 95, 105⟩
      105 false).balance = 10010
    ∧ (close_position ⟨10000, 1, true, some Side.short, 100, 2, 105, 95⟩
      95 false).balance = 10010
    ∧ (close_position ⟨10000, 1, true, some Side.long, 100, 2, 95, 105⟩
      105 false).position_active = false := by
  refine ⟨?_, ?_, ?_⟩
  · have h := (close_position_spec
      ⟨10000, 1, true, some Side.long, 100, 2, 95, 105⟩ 105 false rfl).1 rfl
    rw [h]; norm_num
  · have h := (close_position_spec
      ⟨10000, 1, true, some Side.short, 100, 2, 105, 95⟩ 95 false rfl).2.1 rfl
    rw [h]; norm_num
  · exact (close_position_spec
      ⟨10000, 1, true, some Side.long, 100, 2, 95, 105⟩ 105 false rfl).2.2.1

/-- C4: on an ACTIVE position, `check_exit` for a long fires the stop flag iff
`current_price ≤ stop_loss` and the take-profit flag iff the stop did not fire
and `current_price ≥ take_profit`; for a short the conditions are mirrored;
the fired branch closes the position with the matching `hit_stop` flag, the
stop is checked first, and at most one exit (the `Option` result) fires per
call. -/
theorem check_exit_spec (s : BotState) (current_price : ℚ)
    (h : s.position_active = true) :
    (s.position_side = some Side.long →
      ((check_exit s current_price).2 = some true
          ↔ current_price ≤ s.stop_loss)
      ∧ ((check_exit s current_price).2 = some false
          ↔ ¬ current_price ≤ s.stop_loss ∧ current_price ≥ s.take_profit)
      ∧ (current_price ≤ s.stop_loss →
          check_exit s current_price
            = (close_position s current_price true, some true))
      ∧ (¬ current_price ≤ s.stop_loss → current_price ≥ s.take_profit →
          check_exit s current_price
            = (close_position s current_price false, some false))
      ∧ (¬ current_price ≤ s.stop_loss → ¬ current_price ≥ s.take_profit →
          check_exit s current_price = (s, none)))
    ∧ (s.position_side = some Side.short →
      ((check_exit s current_price).2 = some true
          ↔ current_price ≥ s.stop_loss)
      ∧ ((check_exit s current_price).2 = some false
          ↔ ¬ current_price ≥ s.stop_loss ∧ current_price ≤ s.take_profit)
      ∧ (current_price ≥ s.stop_loss →
          check_exit s current_price
            = (close_position s current_price true, some true))
      ∧ (¬ current_price ≥ s.stop_loss → current_price ≤ s.take_profit →
          check_exit s current_price
            = (close_position s current_price false, some false))
      ∧ (¬ current_price ≥ s.stop_loss → ¬ current_price ≤ s.take_profit →
          check_exit s current_price = (s, none))) := by
  constructor
  · intro hside
    by_cases h1 : current_price ≤ s.stop_loss <;>
      by_cases h2 : current_price ≥ s.take_profit <;>
      simp [check_exit, h, hside, h1, h2]
  · intro hside
    by_cases h1 : current_price ≥ s.stop_loss <;>
      by_cases h2 : current_price ≤ s.take_profit <;>
      simp [check_exit, h, hside, h1, h2]

/-- Witness for C4: a long with stop 95 and take-profit 105 checked at price
94 fires the stop flag (and closes via the stop branch), not the take-profit. -/
theorem check_exit_spec_witness :
    (check_exit ⟨10000, 1, true, some Side.long, 100, 2, 95, 105⟩ 94).2
        = some true
    ∧ check_exit ⟨10000, 1, true, some Side.long, 100, 2, 95, 105⟩ 94
        = (close_position ⟨10000, 1, true, some Side.long, 100, 2, 95, 105⟩
            94 true, some true) := by
  have h := (check_exit_spec
    ⟨10000, 1, true, some Side.long, 100, 2, 95, 105⟩ 94 rfl).1 rfl
  exact ⟨h.1.mpr (by norm_num), h.2.2.1 (by norm_num)⟩

/-- C5: every invalid transition is a silent no-op leaving the whole state
unchanged — `open` while ACTIVE, and `close` or `check_exit` while EMPTY —
and calling `open` twice in a row leaves the state identical to the state
after the first call. -/
theorem invalid_transition_noop_spec (s : BotState) :
    (s.position_active = true →
      ∀ side entry_price stop_loss take_profit,
        open_position s side entry_price stop_loss take_profit = s)
    ∧ (s.position_active = false →
      ∀ close_price hit_stop, close_position s close_price hit_stop = s)
    ∧ (s.position_active = false →
      ∀ current_price, check_exit s current_price = (s, none))
    ∧ (∀ side e sl tp side2 e2 sl2 tp2,
        open_position (open_position s side e sl tp) side2 e2 sl2 tp2
          = open_position s side e sl tp) := by
  refine ⟨fun h side e sl tp => ?_, fun h cp b => ?_, fun h cp => ?_,
    fun side e sl tp side2 e2 sl2 tp2 => ?_⟩
  · simp [open_position, h]
  · simp [close_position, h]
  · simp [check_exit, h]
  · by_cases h : s.position_active
    · simp [open_position, h]
    · set s1 := open_position s side e sl tp with hs1
      have h1 : s1.position_active = true := by
        rw [hs1]; simp [open_position, h]
      simp [open_position, h1]

/-- Witness for C5: from a fresh bot, a double open equals a single open, and
on the fresh (EMPTY) bot close and check_exit are exact no-ops; on the opened
(ACTIVE) bot a further open is an exact no-op. -/
theorem invalid_transition_noop_spec_witness :
    open_position (open_position (BotState.init 10000 1) Side.long 100 95 105)
        Side.short 200 210 190
      = open_position (BotState.init 10000 1) Side.long 100 95 105
    ∧ close_position (BotState.init 10000 1) 123 true = BotState.init 10000 1
    ∧ check_exit (BotState.init 10000 1) 123 = (BotState.init 10000 1, none)
    ∧ open_position (open_position (BotState.init 10000 1) Side.long 100 95 105)
        Side.short 200 210 190
      = open_position (BotState.init 10000 1) Side.long 100 95 105 := by
  refine ⟨?_, ?_, ?_, ?_⟩
  · exact (invalid_transition_noop_spec (BotState.init 10000 1)).2.2.2
      Side.long 100 95 105 Side.short 200 210 190
  · exact (invalid_transition_noop_spec (BotState.init 10000 1)).2.1 rfl 123 true
  · exact (invalid_transition_noop_spec (BotState.init 10000 1)).2.2.1 rfl 123
  · exact (invalid_transition_noop_spec
      (open_position (BotState.init 10000 1) Side.long 100 95 105)).1
      (by simp [open_position, BotState.init]) Side.short 200 210 190

/-- Closing always leaves the position inactive: either the close fires and
resets the flag, or the state was already inactive and is returned as is. -/
theorem close_position_not_active (s : BotState) (cp : ℚ) (b : Bool) :
    (close_position s cp b).position_active = false := by
  by_cases h : s.position_active <;> simp [close_position, h]

/-- The state `check_exit` returns is either the input state or the result of
one of the two `close_position` calls of its branches. -/
theorem check_exit_fst_cases (s : BotState) (cp : ℚ) :
    (check_exit s cp).1 = s
    ∨ (check_exit s cp).1 = close_position s cp true
    ∨ (check_exit s cp).1 = close_position s cp false := by
  by_cases h : s.position_active
  · cases hside : s.position_side with
    | none => simp [check_exit, h, hside]
    | some sd => cases sd <;> simp [check_exit, h, hside] <;> split_ifs <;> simp
  · simp [check_exit, h]

/-- When `check_exit` reports no exit, it returns the input state unchanged. -/
theorem check_exit_none_fst (s : BotState) (cp : ℚ)
    (h : (check_exit s cp).2 = none) : (check_exit s cp).1 = s := by
  by_cases ha : s.position_active
  · cases hside : s.position_side with
    | none => simp [check_exit, ha, hside]
    | some sd =>
      cases sd <;> simp [check_exit, ha, hside] at h ⊢ <;>
        split_ifs at h ⊢ <;> simp_all
  · simp [check_exit, ha]

/-- Closing preserves the inactive-fields invariant. -/
theorem close_position_emptyInv (s : BotState) (cp : ℚ) (b : Bool)
    (hs : EmptyInv s) : EmptyInv (close_position s cp b) := by
  by_cases h : s.position_active
  · simp [EmptyInv, close_position, h]
  · have e : close_position s cp b = s := by simp [close_position, h]
    rw [e]; exact hs

/-- C6: the invariant "inactive implies every position field is reset" holds
in the initial state and is preserved by open, check_exit and close from every
state satisfying it, and the bot never holds more than one active position. -/
theorem position_invariant_spec :
    (∀ starting_balance risk_pct,
      EmptyInv (BotState.init starting_balance risk_pct))
    ∧ (∀ s, EmptyInv s →
        ∀ side e sl tp, EmptyInv (open_position s side e sl tp))
    ∧ (∀ s, EmptyInv s → ∀ cp, EmptyInv (check_exit s cp).1)
    ∧ (∀ s, EmptyInv s → ∀ cp b, EmptyInv (close_position s cp b))
    ∧ (∀ s, activePositions s ≤ 1) := by
  refine ⟨fun b r => ?_, fun s hs side e sl tp => ?_, fun s hs cp => ?_,
    fun s hs cp b => close_position_emptyInv s cp b hs, fun s => ?_⟩
  · simp [EmptyInv, BotState.init]
  · by_cases h : s.position_active
    · have e : open_position s side e sl tp = s := by simp [open_position, h]
      rw [e]; exact hs
    · simp [EmptyInv, open_position, h]
  · rcases check_exit_fst_cases s cp with h | h | h <;> rw [h]
    · exact hs
    · exact close_position_emptyInv s cp true hs
    · exact close_position_emptyInv s cp false hs
  · unfold activePositions
    split_ifs <;> omega

/-- Witness for C6: the invariant holds on a fresh bot, after opening a long,
and after an exit check on that long; the active-position count of the opened
state is at most one. -/
theorem position_invariant_spec_witness :
    EmptyInv (BotState.init 10000 1)
    ∧ EmptyInv (open_position (BotState.init 10000 1) Side.long 100 95 105)
    ∧ EmptyInv
        (check_exit (open_position (BotState.init 10000 1) Side.long 100 95 105)
          94).1
    ∧ activePositions (open_position (BotState.init 10000 1) Side.long 100 95 105)
        ≤ 1 := by
  have h0 := position_invariant_spec.1 10000 1
  have h1 := position_invariant_spec.2.1 _ h0 Side.long 100 95 105
  exact ⟨h0, h1, position_invariant_spec.2.2.1 _ h1 94,
    position_invariant_spec.2.2.2.2 _⟩

/-- C7: from an EMPTY state, opening with `entry_price == stop_loss` is
accepted: the result is marked active with size 0, further opens are blocked
(exact no-ops), and each exit check either leaves that position in place or
deactivates it through its own exit conditions. -/
theorem zero_stop_open_spec (s : BotState) (h : s.position_active = false)
    (side : Side) (entry_price take_profit : ℚ) :
    (open_position s side entry_price entry_price take_profit).position_active
        = true
    ∧ (open_position s side entry_price entry_price take_profit).position_size
        = 0
    ∧ (∀ side2 e2 sl2 tp2,
        open_position (open_position s side entry_price entry_price take_profit)
            side2 e2 sl2 tp2
          = open_position s side entry_price entry_price take_profit)
    ∧ (∀ cp,
        (check_exit (open_position s side entry_price entry_price take_profit)
            cp).1
          = open_position s side entry_price entry_price take_profit
        ∨ (check_exit (open_position s side entry_price entry_price take_profit)
            cp).1.position_active = false) := by
  set s1 := open_position s side entry_price entry_price take_profit with hs1
  have ha : s1.position_active = true := by rw [hs1]; simp [open_position, h]
  refine ⟨ha, ?_, fun side2 e2 sl2 tp2 => by simp [open_position, ha], fun cp => ?_⟩
  · rw [hs1]
    simp [open_position, h, calculate_position_size]
  · rcases check_exit_fst_cases s1 cp with hc | hc | hc
    · exact Or.inl hc
    · exact Or.inr (by rw [hc]; exact close_position_not_active s1 cp true)
    · exact Or.inr (by rw [hc]; exact close_position_not_active s1 cp false)

/-- Witness for C7: opening a long on a fresh bot with entry 100 and stop 100
yields an active zero-size position; a further open is an exact no-op and an
exit check at an interior price leaves the position in place or inactive. -/
theorem zero_stop_open_spec_witness :
    (open_position (BotState.init 10000 1) Side.long 100 100 105).position_active
        = true
    ∧ (open_position (BotState.init 10000 1) Side.long 100 100 105).position_size
        = 0
    ∧ open_position (open_position (BotState.init 10000 1) Side.long 100 100 105)
        Side.short 200 210 190
      = open_position (BotState.init 10000 1) Side.long 100 100 105 := by
  have h := zero_stop_open_spec (BotState.init 10000 1) rfl Side.long 100 105
  exact ⟨h.1, h.2.1, h.2.2.1 Side.short 200 210 190⟩

/-- C9: among the state-machine operations only close mutates the balance:
open never changes it, and an exit check that fires no exit returns a state
with the balance unchanged. -/
theorem balance_frame_spec (s : BotState) :
    (∀ side e sl tp, (open_position s side e sl tp).balance = s.balance)
    ∧ (∀ cp, (check_exit s cp).2 = none →
        (check_exit s cp).1.balance = s.balance) := by
  constructor
  · intro side e sl tp
    by_cases h : s.position_active <;> simp [open_position, h]
  · intro cp hnone
    rw [check_exit_none_fst s cp hnone]

/-- Witness for C9: on a fresh bot, opening a long leaves the balance at
10000, and an exit check strictly between stop and take-profit (which fires
nothing) also leaves the balance at 10000. -/
theorem balance_frame_spec_witness :
    (open_position (BotState.init 10000 1) Side.long 100 95 105).balance = 10000
    ∧ (check_exit (open_position (BotState.init 10000 1) Side.long 100 95 105)
        100).1.balance = 10000 := by
  constructor
  · exact (balance_frame_spec (BotState.init 10000 1)).1 Side.long 100 95 105
  · exact (balance_frame_spec
      (open_position (BotState.init 10000 1) Side.long 100 95 105)).2 100
      (by norm_num [check_exit, open_position, BotState.init])

/-- C10: opening from an EMPTY state and closing at the entry price realises
a PnL of exactly 0: the close leaves the balance equal to the opened state's
balance, which equals the balance before the open. -/
theorem open_close_roundtrip_spec (s : BotState) (h : s.position_active = false)
    (side : Side) (entry_price stop_loss take_profit : ℚ) (hit_stop : Bool) :
    (close_position (open_position s side entry_price stop_loss take_profit)
        entry_price hit_stop).balance
      = (open_position s side entry_price stop_loss take_profit).balance
    ∧ (close_position (open_position s side entry_price stop_loss take_profit)
        entry_price hit_stop).balance = s.balance := by
  set s1 := open_position s side entry_price stop_loss take_profit with hs1
  have ha : s1.position_active = true := by rw [hs1]; simp [open_position, h]
  have he : s1.entry_price = entry_price := by rw [hs1]; simp [open_position, h]
  have hb : s1.balance = s.balance := by rw [hs1]; simp [open_position, h]
  have key : (close_position s1 entry_price hit_stop).balance = s1.balance := by
    by_cases hside : s1.position_side = some Side.long <;>
      simp [close_position, ha, hside, he]
  exact ⟨key, key.trans hb⟩

/-- Witness for C10: open a long at 100 on a fresh bot and close it at 100 —
the balance is back at (and never left) 10000, for both exit flags. -/
theorem open_close_roundtrip_spec_witness :
    (close_position (open_position (BotState.init 10000 1) Side.long 100 95 105)
        100 false).balance = 10000
    ∧ (close_position (open_position (BotState.init 10000 1) Side.short 100 105 95)
        100 true).balance = 10000 := by
  constructor
  · exact (open_close_roundtrip_spec (BotState.init 10000 1) rfl
      Side.long 100 95 105 false).2
  · exact (open_close_roundtrip_spec (BotState.init 10000 1) rfl
      Side.short 100 105 95 true).2

/-- The mean of a list of nonnegative rationals is nonnegative. -/
theorem avg_nonneg (xs : List ℚ) (h : ∀ x ∈ xs, 0 ≤ x) : 0 ≤ avg xs := by
  unfold avg
  split_ifs with he
  · exact le_refl 0
  · exact div_nonneg (List.sum_nonneg h) (Nat.cast_nonneg _)

/-- The mean of a nonempty list of positive rationals is positive. -/
theorem avg_pos (xs : List ℚ) (hne : xs ≠ []) (h : ∀ x ∈ xs, 0 < x) :
    0 < avg xs := by
  unfold avg
  rw [if_neg hne]
  exact div_pos (List.sum_pos xs h hne)
    (by exact_mod_cast List.length_pos.mpr hne)

/-- The mean of an all-zero list is zero. -/
theorem avg_zero_of_all_zero (xs : List ℚ) (h : ∀ x ∈ xs, x = 0) :
    avg xs = 0 := by
  unfold avg
  split_ifs with he
  · rfl
  · rw [List.sum_eq_zero h, zero_div]

/-- Every up-move magnitude is nonnegative. -/
theorem gains_nonneg (ds : List ℚ) : ∀ x ∈ gains ds, 0 ≤ x := by
  intro x hx
  simp only [gains, List.mem_map] at hx
  obtain ⟨d, _, rfl⟩ := hx
  exact le_max_right d 0

/-- Every down-move magnitude is nonnegative. -/
theorem losses_nonneg (ds : List ℚ) : ∀ x ∈ losses ds, 0 ≤ x := by
  intro x hx
  simp only [losses, List.mem_map] at hx
  obtain ⟨d, _, rfl⟩ := hx
  exact le_max_right (-d) 0

/-- Every defined oscillator value lies in the interval [0, 100]. -/
theorem rsi_of_window_bounds (w : List ℚ) (v : ℚ)
    (h : rsi_of_window w = some v) : 0 ≤ v ∧ v ≤ 100 := by
  simp only [rsi_of_window] at h
  set g := avg (gains w) with hg
  set l := avg (losses w) with hl
  have hg0 : 0 ≤ g := avg_nonneg _ (gains_nonneg w)
  have hl0 : 0 ≤ l := avg_nonneg _ (losses_nonneg w)
  split_ifs at h with h1 h2
  · injection h with h
    rw [h.symm]
    norm_num
  · injection h with h
    have hlpos : 0 < l := lt_of_le_of_ne hl0 (Ne.symm h2)
    have hrs : 0 ≤ g / l := div_nonneg hg0 hl0
    have hfrac_pos : 0 < 100 / (1 + g / l) := by positivity
    have hfrac_le : 100 / (1 + g / l) ≤ 100 :=
      div_le_self (by norm_num) (by linarith)
    constructor <;> rw [h.symm]
    · linarith
    · linarith

/-- A window with zero average loss and nonzero average gain maps to 100. -/
theorem rsi_of_window_loss_zero (w : List ℚ) (hl : avg (losses w) = 0)
    (hg : avg (gains w) ≠ 0) : rsi_of_window w = some 100 := by
  unfold rsi_of_window
  rw [if_neg (fun hc => hg hc.1), if_pos hl]

/-- A window with zero average gain and nonzero average loss maps to 0. -/
theorem rsi_of_window_gain_zero (w : List ℚ) (hg : avg (gains w) = 0)
    (hl : avg (losses w) ≠ 0) : rsi_of_window w = some 0 := by
  unfold rsi_of_window
  rw [if_neg (fun hc => hl hc.2), if_neg hl, hg]
  norm_num

/-- A nonempty window of strictly positive moves maps to 100. -/
theorem rsi_of_window_all_pos (ds : List ℚ) (hne : ds ≠ [])
    (h : ∀ d ∈ ds, 0 < d) : rsi_of_window ds = some 100 := by
  have hl : avg (losses ds) = 0 := by
    apply avg_zero_of_all_zero
    intro x hx
    simp only [losses, List.mem_map] at hx
    obtain ⟨d, hd, rfl⟩ := hx
    exact max_eq_right (by linarith [h d hd])
  have hgpos : 0 < avg (gains ds) := by
    apply avg_pos
    · simp [gains, hne]
    · intro x hx
      simp only [gains, List.mem_map] at hx
      obtain ⟨d, hd, rfl⟩ := hx
      exact lt_of_lt_of_le (h d hd) (le_max_left d 0)
  exact rsi_of_window_loss_zero ds hl (ne_of_gt hgpos)

/-- A nonempty window of strictly negative moves maps to 0. -/
theorem rsi_of_window_all_neg (ds : List ℚ) (hne : ds ≠ [])
    (h : ∀ d ∈ ds, d < 0) : rsi_of_window ds = some 0 := by
  have hg : avg (gains ds) = 0 := by
    apply avg_zero_of_all_zero
    intro x hx
    simp only [gains, List.mem_map] at hx
    obtain ⟨d, hd, rfl⟩ := hx
    exact max_eq_right (le_of_lt (h d hd))
  have hlpos : 0 < avg (losses ds) := by
    apply avg_pos
    · simp [losses, hne]
    · intro x hx
      simp only [losses, List.mem_map] at hx
      obtain ⟨d, hd, rfl⟩ := hx
      exact lt_of_lt_of_le (by linarith [h d hd]) (le_max_left (-d) 0)
  exact rsi_of_window_gain_zero ds hg (ne_of_gt hlpos)

/-- A series has one move fewer than it has closes. -/
theorem diffs_length (l : List ℚ) : (diffs l).length = l.length - 1 := by
  induction l with
  | nil => simp [diffs]
  | cons a t ih =>
    cases t with
    | nil => simp [diffs]
    | cons b r =>
      simp only [diffs, List.length_cons] at ih ⊢
      omega

/-- Every move of a strictly increasing close series is positive. -/
theorem diffs_pos_of_chain (l : List ℚ) (h : List.Chain' (· < ·) l) :
    ∀ d ∈ diffs l, 0 < d := by
  induction l with
  | nil => simp [diffs]
  | cons a t ih =>
    cases t with
    | nil => simp [diffs]
    | cons b r =>
      rw [List.chain'_cons] at h
      intro d hd
      simp only [diffs, List.mem_cons] at hd
      rcases hd with rfl | hd
      · linarith [h.1]
      · exact ih h.2 d hd

/-- Every move of a strictly decreasing close series is negative. -/
theorem diffs_neg_of_chain (l : List ℚ) (h : List.Chain' (· > ·) l) :
    ∀ d ∈ diffs l, d < 0 := by
  induction l with
  | nil => simp [diffs]
  | cons a t ih =>
    cases t with
    | nil => simp [diffs]
    | cons b r =>
      rw [List.chain'_cons] at h
      intro d hd
      simp only [diffs, List.mem_cons] at hd
      rcases hd with rfl | hd
      · have : b < a := h.1
        linarith
      · exact ih h.2 d hd

/-- Entry `i` of the momentum column, in terms of its window of moves. -/
theorem compute_rsi_getElem (closes : List ℚ) (w i : ℕ)
    (h : i < closes.length) :
    (compute_rsi closes w)[i]?
      = some (if w ≤ i then
          rsi_of_window (((diffs closes).drop (i - w)).take w) else none) := by
  unfold compute_rsi
  rw [List.getElem?_map, List.getElem?_range h]
  rfl

/-- C8: every defined momentum value lies in [0, 100]; a window with zero
average loss maps to 100 and one with zero average gain maps to 0 (whenever
the opposite average is nonzero, which makes the value defined); hence the
latest momentum value of a strictly increasing close series is exactly 100
and that of a strictly decreasing one is exactly 0. -/
theorem momentum_oscillator_spec :
    (∀ closes w o, o ∈ compute_rsi closes w →
      ∀ v : ℚ, o = some v → 0 ≤ v ∧ v ≤ 100)
    ∧ (∀ window, avg (losses window) = 0 → avg (gains window) ≠ 0 →
        rsi_of_window window = some 100)
    ∧ (∀ window, avg (gains window) = 0 → avg (losses window) ≠ 0 →
        rsi_of_window window = some 0)
    ∧ (∀ closes w, 0 < w → w + 1 ≤ closes.length →
        List.Chain' (· < ·) closes →
        (compute_rsi closes w)[closes.length - 1]? = some (some 100))
    ∧ (∀ closes w, 0 < w → w + 1 ≤ closes.length →
        List.Chain' (· > ·) closes →
        (compute_rsi closes w)[closes.length - 1]? = some (some 0)) := by
  refine ⟨?_, rsi_of_window_loss_zero, rsi_of_window_gain_zero, ?_, ?_⟩
  · intro closes w o ho v hv
    subst hv
    unfold compute_rsi at ho
    rw [List.mem_map] at ho
    obtain ⟨i, _, hio⟩ := ho
    split_ifs at hio with hwi
    exact rsi_of_window_bounds _ v hio
  · intro closes w hw hlen hchain
    rw [compute_rsi_getElem closes w (closes.length - 1) (by omega),
      if_pos (by omega : w ≤ closes.length - 1)]
    congr 1
    apply rsi_of_window_all_pos
    · apply List.ne_nil_of_length_pos
      rw [List.length_take, List.length_drop, diffs_length]
      omega
    · intro d hd
      exact diffs_pos_of_chain closes hchain d
        (List.mem_of_mem_drop (List.mem_of_mem_take hd))
  · intro closes w hw hlen hchain
    rw [compute_rsi_getElem closes w (closes.length - 1) (by omega),
      if_pos (by omega : w ≤ closes.length - 1)]
    congr 1
    apply rsi_of_window_all_neg
    · apply List.ne_nil_of_length_pos
      rw [List.length_take, List.length_drop, diffs_length]
      omega
    · intro d hd
      exact diffs_neg_of_chain closes hchain d
        (List.mem_of_mem_drop (List.mem_of_mem_take hd))

/-- Witness for C8: on the strictly increasing close series [1, 2, 3] with a
2-move window, the latest momentum value is defined and equals 100; on the
strictly decreasing series [3, 2, 1] it equals 0; and the all-gain window
[1, 1] maps to 100. -/
theorem momentum_oscillator_spec_witness :
    (compute_rsi [1, 2, 3] 2)[2]? = some (some 100)
    ∧ (compute_rsi [3, 2, 1] 2)[2]? = some (some 0)
    ∧ rsi_of_window [1, 1] = some 100 := by
  refine ⟨?_, ?_, ?_⟩
  · exact momentum_oscillator_spec.2.2.2.1 [1, 2, 3] 2
      (by norm_num) (by simp)
      (by norm_num [List.chain'_cons, List.chain'_singleton])
  · exact momentum_oscillator_spec.2.2.2.2 [3, 2, 1] 2
      (by norm_num) (by simp)
      (by norm_num [List.chain'_cons, List.chain'_singleton])
  · exact momentum_oscillator_spec.2.1 [1, 1]
      (by norm_num [avg, losses, max_def, List.cons_ne_nil])
      (by norm_num [avg, gains, max_def, List.cons_ne_nil])
